import Mathlib

/-!
# Verification of guillotina's response layer and application-root registry

A shallow embedding, in Lean 4, of `guillotina/response.py` and the
`ApplicationRoot` registry of `guillotina/factory/content.py`, together with
theorems settling the specification's claims about them.

Conventions of the embedding:
* Python `bytes` values become `List Nat` (one entry per byte); byte-ishness
  becomes a typing fact so the `assert isinstance(..., bytes)` guards need no
  runtime counterpart.
* The ASGI `send` callable becomes an explicit trace: every operation returns,
  next to its result, the list of messages it sent, in order.
* Python exceptions become `Except` errors; in the source every `raise`
  precedes all `send` calls of that operation, so an `.error` result carrying
  no trace is faithful.
* `asyncio` coroutines are driven by a single task per response (spec §5), so
  `await` points introduce no interleaving and the embedding is sequential.
* JSON-dict content payloads are abstracted to string-keyed association lists;
  no claim inspects the values of a content payload, only its presence.
-/

/-- A Python `bytes` value: the list of its byte values. -/
abbrev Bytes := List Nat

/-- One `http.response.body` ASGI message: its `body` and `more_body` fields. -/
structure BodyFrame where
  body : Bytes
  more_body : Bool
deriving DecidableEq, Repr

/-- Python errors raised by the embedded code. -/
inductive PyErr where
  | keyError
  | valueError (msg : String)
  | runtimeError (msg : String)
  | assertionError (msg : String)
deriving DecidableEq, Repr

/-! ## Python string primitives

Python compares strings lexicographically by code point; `str.upper` and
`str.lower` map each character (ASCII in all strings the source uses). -/

/-- Python's `<` on strings: lexicographic comparison by code point. -/
def strLtB : List Char → List Char → Bool
  | [], [] => false
  | [], _ :: _ => true
  | _ :: _, [] => false
  | a :: as, b :: bs =>
    if a.toNat < b.toNat then true
    else if b.toNat < a.toNat then false
    else strLtB as bs

/-- Python's `<=` on strings (total: `a <= b` iff `not (b < a)`). -/
def pyStrLe (a b : String) : Bool := !(strLtB b.data a.data)

/-- Python's `sorted` on a list of strings: a stable sort by the code-point
order `pyStrLe`. -/
def pySorted (xs : List String) : List String :=
  xs.insertionSort (fun a b => pyStrLe a b = true)

/-- Python's `str.upper` (ASCII). -/
def pyUpper (s : String) : String := ⟨s.data.map Char.toUpper⟩

/-- Python's `str.lower` (ASCII). -/
def pyLower (s : String) : String := ⟨s.data.map Char.toLower⟩

/-! ## CIMultiDict

The header containers are `multidict.CIMultiDict` instances: mappings with
case-insensitive keys, modelled as association lists in insertion order. -/

/-- A `CIMultiDict` of headers, as an association list in insertion order. -/
abbrev Headers := List (String × String)

/-- The case-insensitive comparison key of a header name. -/
def ciKey (s : String) : String := pyLower s

/-- `d.getone(k)` / `d[k]` lookup: the first value whose key matches
case-insensitively, if any. -/
def Headers.getone (h : Headers) (k : String) : Option String :=
  (h.find? (fun p => ciKey p.1 == ciKey k)).map (fun p => p.2)

/-- `d[k] = v`: drop every entry whose key matches `k` case-insensitively and
append the new entry. -/
def Headers.setItem (h : Headers) (k v : String) : Headers :=
  (h.filter (fun p => !(ciKey p.1 == ciKey k))) ++ [(k, v)]

/-- `d.setdefault(k, v)`: append `(k, v)` only when no entry matches `k`
case-insensitively. -/
def Headers.setdefault (h : Headers) (k v : String) : Headers :=
  if (h.find? (fun p => ciKey p.1 == ciKey k)).isSome then h else h ++ [(k, v)]

/-- `CIMultiDict()` when the `headers` argument is `None`, else
`CIMultiDict(headers)`. -/
def Headers.ofOpt : Option Headers → Headers
  | none => []
  | some h => h

/-! ## Materialized responses (`response.py`, lines 18-558) -/

/-- A JSON-dict content payload, abstracted to a string association list. -/
abbrev Content := List (String × String)

/-- Python's `content or default`: `None` and the empty dict are falsy. -/
def dictOr (content : Option Content) (default : Content) : Content :=
  match content with
  | none => default
  | some c => if c = [] then default else c

/-- Truthiness of the `status_code` class attribute (`if self.status_code:`):
`None` and `0` are falsy. -/
def truthyCode : Option Nat → Bool
  | none => false
  | some n => decide (n ≠ 0)

/-- The class-level data distinguishing one `Response` subclass from another:
its `status_code`, `empty_body` and `default_content` class attributes. -/
structure RespClass where
  status_code : Option Nat
  empty_body : Bool
  default_content : Content
deriving DecidableEq, Repr

/-- The attribute state of a constructed `Response` instance. -/
structure ResponseData where
  content : Option Content
  headers : Headers
  status_code : Option Nat
deriving DecidableEq, Repr

/-- The base `Response` class: no fixed status code, a body, `{}` default. -/
def Response : RespClass :=
  { status_code := none, empty_body := false, default_content := [] }

/-- `class HTTPOk(HTTPSuccessful): status_code = 200`. -/
def HTTPOk : RespClass :=
  { status_code := some 200, empty_body := false, default_content := [] }

/-- `class HTTPNoContent(HTTPSuccessful): status_code = 204; empty_body = True`. -/
def HTTPNoContent : RespClass :=
  { status_code := some 204, empty_body := true, default_content := [] }

/-- `class HTTPResetContent(HTTPSuccessful): status_code = 205; empty_body = True`. -/
def HTTPResetContent : RespClass :=
  { status_code := some 205, empty_body := true, default_content := [] }

/-- `class HTTPBadRequest(HTTPClientError): status_code = 400`. -/
def HTTPBadRequest : RespClass :=
  { status_code := some 400, empty_body := false, default_content := [] }

/-- `class HTTPMethodNotAllowed(HTTPClientError): status_code = 405`. -/
def HTTPMethodNotAllowed : RespClass :=
  { status_code := some 405, empty_body := false, default_content := [] }

/-- `Response.__init__(self, *, content=None, headers=None, status=None)`:
sets `content` (`None` when `empty_body`, else `content or default.copy()`),
wraps `headers` in a `CIMultiDict`, and, when `status` is not `None`, raises
`ValueError` if the class already fixes a truthy `status_code`, clears the
content for 204/205, and stores the status. -/
def Response.init (cls : RespClass) (content : Option Content)
    (headers : Option Headers) (status : Option Nat) :
    Except PyErr ResponseData :=
  let c : Option Content :=
    if cls.empty_body then none else some (dictOr content cls.default_content)
  let hs := Headers.ofOpt headers
  match status with
  | none => .ok { content := c, headers := hs, status_code := cls.status_code }
  | some st =>
    if truthyCode cls.status_code then
      .error (.valueError "Can not customize status code of this type")
    else
      .ok { content := if st = 204 ∨ st = 205 then none else c,
            headers := hs, status_code := some st }

/-- The attribute state of a constructed `HTTPMethodNotAllowed` instance. -/
structure HTTPMethodNotAllowedData where
  resp : ResponseData
  allowed_methods : List String
  method : String
deriving DecidableEq, Repr

/-- `HTTPMethodNotAllowed.__init__`: joins `sorted(allowed_methods)` with
commas, runs the base constructor (no status argument), sets the `Allow`
header to the joined string, and stores `allowed_methods` and
`method.upper()`. -/
def HTTPMethodNotAllowed.init (method : String) (allowed_methods : List String)
    (content : Option Content) (headers : Option Headers) :
    Except PyErr HTTPMethodNotAllowedData := do
  let allow := ",".intercalate (pySorted allowed_methods)
  let base ← Response.init HTTPMethodNotAllowed content headers none
  .ok { resp := { base with headers := Headers.setItem base.headers "Allow" allow },
        allowed_methods := allowed_methods,
        method := pyUpper method }

/-! ## AsgiStreamWriter (`response.py`, lines 561-606) -/

/-- State of one `AsgiStreamWriter`: the FIFO `_buffer` queue (head = next
chunk to be dequeued), the `eof` flag, and the `output_size` attribute.  In
the source `output_size` is a class attribute initialised to `0` that no
method ever assigns; it is modelled as a field that construction sets to `0`
and no operation updates. -/
structure AsgiStreamWriter where
  buffer : List Bytes
  eof : Bool
  output_size : Nat
deriving DecidableEq, Repr

namespace AsgiStreamWriter

/-- `AsgiStreamWriter.__init__`: empty queue, `eof = False`, `output_size = 0`.
The `send` callable is represented by the returned traces instead of being
stored. -/
def mk0 : AsgiStreamWriter := { buffer := [], eof := false, output_size := 0 }

/-- `AsgiStreamWriter.write`: put the chunk on the queue; nothing is sent. -/
def write (w : AsgiStreamWriter) (chunk : Bytes) :
    AsgiStreamWriter × List BodyFrame :=
  ({ w with buffer := w.buffer ++ [chunk] }, [])

/-- `AsgiStreamWriter.drain`: while the queue is non-empty, pop the head chunk
and send it as a body frame with `more_body=True`; afterwards, if `eof` is
set, send one empty body frame with `more_body=False`. -/
def drain (w : AsgiStreamWriter) : AsgiStreamWriter × List BodyFrame :=
  ({ w with buffer := [] },
   w.buffer.map (fun b => { body := b, more_body := true })
     ++ (if w.eof then [{ body := [], more_body := false }] else []))

/-- `AsgiStreamWriter.write_eof`: `write` the last chunk, set `eof`, `drain`. -/
def write_eof (w : AsgiStreamWriter) (chunk : Bytes := []) :
    AsgiStreamWriter × List BodyFrame :=
  let (w1, f1) := w.write chunk
  let w2 := { w1 with eof := true }
  let (w3, f2) := w2.drain
  (w3, f1 ++ f2)

end AsgiStreamWriter

/-- One call a client can make on an `AsgiStreamWriter`. -/
inductive WriterOp where
  | write (chunk : Bytes)
  | write_eof (chunk : Bytes)
  | drain
deriving DecidableEq, Repr

/-- Whether a `WriterOp` is a `write_eof` call. -/
def WriterOp.isEof : WriterOp → Bool
  | .write_eof _ => true
  | _ => false

/-- Run one writer call on a writer state, returning the new state and the
frames it sent. -/
def stepW (w : AsgiStreamWriter) : WriterOp → AsgiStreamWriter × List BodyFrame
  | .write c => w.write c
  | .write_eof c => w.write_eof c
  | .drain => w.drain

/-- Run a sequence of writer calls, concatenating the frames each one sent. -/
def runW (w : AsgiStreamWriter) : List WriterOp → AsgiStreamWriter × List BodyFrame
  | [] => (w, [])
  | op :: ops =>
    let (w1, f1) := stepW w op
    let (w2, f2) := runW w1 ops
    (w2, f1 ++ f2)

/-- Number of frames of a trace whose `more_body` field is `False`. -/
def eofFrameCount (fs : List BodyFrame) : Nat :=
  fs.countP (fun f => f.more_body == false)

/-! ## StreamResponse (`response.py`, lines 83-228) -/

/-- The request collaborator: `method`, `path` and `keep_alive`.  Its `send`
capability is represented by the effect traces, and its `_prepare_hook` is an
external middleware hook whose invocation is recorded as an effect. -/
structure Request where
  method : String
  path : String
  keep_alive : Bool
deriving DecidableEq, Repr

/-- One observable effect of a `StreamResponse` operation: invoking the
request's `_prepare_hook`, sending an `http.response.start` message, or
sending an `http.response.body` frame. -/
inductive Effect where
  | hook
  | start (status : Option Nat) (headers : List (String × String))
  | frame (f : BodyFrame)
deriving DecidableEq, Repr

/-- Modelled from the spec: `guillotina.asgi.headers_to_list` is not under
`src/`; per spec §6 it is the header encoding helper converting the
case-insensitive header mapping into the wire's ordered pair sequence,
modelled as the identity on the association list. -/
def headers_to_list (h : Headers) : List (String × String) := h

/-- The attribute state of a `StreamResponse` instance.  The scratch
`_state` mapping and the `__repr__`/container dunder methods are pure
key-value plumbing no claim concerns and are omitted. -/
structure StreamResponse where
  content : Option Content
  headers : Headers
  status_code : Option Nat
  content_type : Option String
  content_length : Option Nat
  _payload_writer : Option AsgiStreamWriter
  _eof_sent : Bool
  _keep_alive : Option Bool
  _req : Option Request
  _body_length : Option Nat
deriving DecidableEq, Repr

/-- `StreamResponse.empty_body = False` class attribute. -/
def StreamResponse.empty_body : Bool := false

/-- `StreamResponse.default_content = {}` class attribute. -/
def StreamResponse.default_content : Content := []

/-- Truthiness of `content_type` (`if self.content_type:`): `None` and the
empty string are falsy. -/
def strOptTruthy : Option String → Bool
  | none => false
  | some s => decide (s ≠ "")

/-- Truthiness of `content_length` (`if self.content_length:`): `None` and
`0` are falsy. -/
def natOptTruthy : Option Nat → Bool
  | none => false
  | some n => decide (n ≠ 0)

/-- `StreamResponse.__init__`: like `Response.__init__` but raises
`ValueError("Status is none")` when `status` is `None`, clears the content
for 204/205, stores the status, and initialises `content_type`,
`content_length`, the writer slot, `_eof_sent`, `_keep_alive = True` and the
request slot. -/
def StreamResponse.init (content : Option Content) (headers : Option Headers)
    (status : Option Nat) : Except PyErr StreamResponse :=
  let c : Option Content :=
    if StreamResponse.empty_body then none
    else some (dictOr content StreamResponse.default_content)
  let hs := Headers.ofOpt headers
  match status with
  | none => .error (.valueError "Status is none")
  | some st =>
    .ok { content := if st = 204 ∨ st = 205 then none else c,
          headers := hs,
          status_code := some st,
          content_type := none,
          content_length := none,
          _payload_writer := none,
          _eof_sent := false,
          _keep_alive := some true,
          _req := none,
          _body_length := none }

/-- `StreamResponse._start`: store the request, resolve keep-alive (inherit
from the request only when `_keep_alive` is `None`), create the one
`AsgiStreamWriter`, fill in `Content-Type` (default
`application/octet-stream`) and `Content-Length` (only when truthy) with
set-if-absent semantics, send the one `http.response.start` message, and
return the writer. -/
def StreamResponse._start (s : StreamResponse) (request : Request) :
    AsgiStreamWriter × StreamResponse × List Effect :=
  let keep_alive := match s._keep_alive with
    | none => request.keep_alive
    | some b => b
  let writer := AsgiStreamWriter.mk0
  let hs :=
    if strOptTruthy s.content_type then
      Headers.setdefault s.headers "Content-Type" (s.content_type.getD "")
    else
      Headers.setdefault s.headers "Content-Type" "application/octet-stream"
  let hs :=
    if natOptTruthy s.content_length then
      Headers.setdefault hs "Content-Length" (toString (s.content_length.getD 0))
    else hs
  let s' := { s with _req := some request,
                     _keep_alive := some keep_alive,
                     _payload_writer := some writer,
                     headers := hs }
  (writer, s', [Effect.start s.status_code (headers_to_list hs)])

/-- `StreamResponse.prepare`: `None` when eof was already sent; the existing
writer, unchanged state, and no effects when already prepared; otherwise
invoke the request's `_prepare_hook` (an external collaborator, recorded as
`Effect.hook`) and run `_start`. -/
def StreamResponse.prepare (s : StreamResponse) (request : Request) :
    Option AsgiStreamWriter × StreamResponse × List Effect :=
  if s._eof_sent then (none, s, [])
  else match s._payload_writer with
    | some w => (some w, s, [])
    | none =>
      let (w, s', effs) := StreamResponse._start s request
      (some w, s', Effect.hook :: effs)

/-- `StreamResponse.write`: `RuntimeError` after `write_eof`, `RuntimeError`
before `prepare`, else delegate to the writer's `write`. -/
def StreamResponse.write (s : StreamResponse) (data : Bytes) :
    Except PyErr (StreamResponse × List Effect) :=
  if s._eof_sent then
    .error (.runtimeError "Cannot call write() after write_eof()")
  else match s._payload_writer with
    | none => .error (.runtimeError "Cannot call write() before prepare()")
    | some w =>
      let (w', fs) := w.write data
      .ok ({ s with _payload_writer := some w' }, fs.map Effect.frame)

/-- `StreamResponse.write_eof`: return immediately when eof was already sent;
`AssertionError` when never prepared; else delegate to the writer's
`write_eof`, mark eof sent, drop the request reference, record
`_body_length` from the writer's `output_size`, and drop the writer. -/
def StreamResponse.write_eof (s : StreamResponse) (data : Bytes := []) :
    Except PyErr (StreamResponse × List Effect) :=
  if s._eof_sent then .ok (s, [])
  else match s._payload_writer with
    | none => .error (.assertionError "Response has not been started")
    | some w =>
      let (w', fs) := w.write_eof data
      .ok ({ s with _eof_sent := true,
                    _req := none,
                    _body_length := some w'.output_size,
                    _payload_writer := none },
           fs.map Effect.frame)

/-- One call a handler can make on a `StreamResponse`. -/
inductive RespOp where
  | prepare (request : Request)
  | write (data : Bytes)
  | write_eof (data : Bytes)
deriving DecidableEq, Repr

/-- Run one `StreamResponse` call, returning the new state and its effects. -/
def stepR (s : StreamResponse) : RespOp → Except PyErr (StreamResponse × List Effect)
  | .prepare request =>
    let (_, s', effs) := StreamResponse.prepare s request
    .ok (s', effs)
  | .write data => StreamResponse.write s data
  | .write_eof data => StreamResponse.write_eof s data

/-- Run a sequence of `StreamResponse` calls, concatenating effects; a raised
error aborts the run. -/
def runR (s : StreamResponse) : List RespOp → Except PyErr (StreamResponse × List Effect)
  | [] => .ok (s, [])
  | op :: ops =>
    match stepR s op with
    | .error e => .error e
    | .ok (s1, f1) =>
      match runR s1 ops with
      | .error e => .error e
      | .ok (s2, f2) => .ok (s2, f1 ++ f2)

/-- Total number of body bytes transmitted in a trace: the sum of the body
lengths of its `http.response.body` frames. -/
def bodyBytes (effs : List Effect) : Nat :=
  (effs.map (fun e => match e with | .frame f => f.body.length | _ => 0)).sum

/-! ## ApplicationRoot (`factory/content.py`, lines 15-98)

The registry maps logical database names to database handles; the handle type
is a parameter `α`.  The async-utility operations, root-user handling and the
`Database` wrapper delegate to collaborators outside the claims and are
omitted. -/

/-- The `_dbs` dict (with unique keys, as a Python dict) and `_config_file`
of an `ApplicationRoot`. -/
structure ApplicationRoot (α : Type) where
  _dbs : List (String × α)
  _config_file : String
deriving DecidableEq, Repr

/-- `ApplicationRoot.__getitem__`: `self._dbs[key]`, raising `KeyError` on an
absent key. -/
def ApplicationRoot.getitem {α : Type} (root : ApplicationRoot α) (key : String) :
    Except PyErr α :=
  match root._dbs.lookup key with
  | some v => .ok v
  | none => .error .keyError

/-- `ApplicationRoot.get`: `try: return self[key] except KeyError: pass`,
so an absent key yields `None`. -/
def ApplicationRoot.get {α : Type} (root : ApplicationRoot α) (key : String) :
    Option α :=
  match root.getitem key with
  | .ok v => some v
  | .error _ => none

/-- `ApplicationRoot.asyncget`: `return self._dbs[key]`, a raw dict access. -/
def ApplicationRoot.asyncget {α : Type} (root : ApplicationRoot α) (key : String) :
    Except PyErr α :=
  match root._dbs.lookup key with
  | some v => .ok v
  | none => .error .keyError

/-! ## Concrete instances used by witnesses and counterexamples -/

/-- A concrete request. -/
def req0 : Request := { method := "GET", path := "/", keep_alive := true }

/-- The state `StreamResponse(status=200)` constructs. -/
def s200 : StreamResponse :=
  { content := some [],
    headers := [],
    status_code := some 200,
    content_type := none,
    content_length := none,
    _payload_writer := none,
    _eof_sent := false,
    _keep_alive := some true,
    _req := none,
    _body_length := none }

/-- `s200` after `prepare(req0)`. -/
def sPrepared : StreamResponse := (StreamResponse.prepare s200 req0).2.1

/-- A `StreamResponse` state whose eof has been sent. -/
def sClosed : StreamResponse := { s200 with _eof_sent := true }

/-- An `ApplicationRoot` with an empty database registry. -/
def root0 : ApplicationRoot Nat := { _dbs := [], _config_file := "config.yaml" }

/-- The run behind the C6 counterexample: construct a 200 stream response,
prepare it, write one byte, close with an empty final chunk. -/
def c6run : Except PyErr (StreamResponse × List Effect) :=
  match StreamResponse.init none none (some 200) with
  | .error e => .error e
  | .ok s0 => runR s0 [.prepare req0, .write [55], .write_eof []]

/-- The `_body_length` a run records, when the run succeeds. -/
def recordedLen (r : Except PyErr (StreamResponse × List Effect)) :
    Option (Option Nat) :=
  match r with
  | .ok (s, _) => some s._body_length
  | .error _ => none

/-- The total transmitted body bytes of a run, when the run succeeds. -/
def transmittedBody (r : Except PyErr (StreamResponse × List Effect)) :
    Option Nat :=
  match r with
  | .ok (_, effs) => some (bodyBytes effs)
  | .error _ => none

/-- The `Allow` header of `HTTPMethodNotAllowed("get", ["get","post","PUT"])`. -/
def c5allow : Option String :=
  match HTTPMethodNotAllowed.init "get" ["get", "post", "PUT"] none none with
  | .ok d => Headers.getone d.resp.headers "Allow"
  | .error _ => none

/-! ## General lemmas about writer runs -/

theorem runW_append (w : AsgiStreamWriter) (l1 l2 : List WriterOp) :
    runW w (l1 ++ l2) =
      ((runW (runW w l1).1 l2).1, (runW w l1).2 ++ (runW (runW w l1).1 l2).2) := by
  induction l1 generalizing w with
  | nil => simp [runW]
  | cons op ops ih => simp [runW, ih, List.append_assoc]

theorem runW_writes (w : AsgiStreamWriter) (chunks : List Bytes) :
    runW w (chunks.map WriterOp.write) =
      ({ w with buffer := w.buffer ++ chunks }, []) := by
  induction chunks generalizing w with
  | nil => simp [runW]
  | cons c cs ih =>
    simp [runW, stepW, AsgiStreamWriter.write, ih, List.append_assoc]

theorem write_eof_frames (w : AsgiStreamWriter) (chunk : Bytes) :
    (w.write_eof chunk).2 =
      (w.buffer ++ [chunk]).map (fun b => { body := b, more_body := true })
        ++ [{ body := [], more_body := false }] := by
  simp [AsgiStreamWriter.write_eof, AsgiStreamWriter.write, AsgiStreamWriter.drain]

theorem write_eof_state (w : AsgiStreamWriter) (chunk : Bytes) :
    (w.write_eof chunk).1 =
      { buffer := [], eof := true, output_size := w.output_size } := by
  simp [AsgiStreamWriter.write_eof, AsgiStreamWriter.write, AsgiStreamWriter.drain]

theorem eofFrameCount_true_frames (bs : List Bytes) :
    eofFrameCount (bs.map (fun b => { body := b, more_body := true })) = 0 := by
  induction bs with
  | nil => rfl
  | cons b bs ih => simp [eofFrameCount, List.countP_cons, ih]

theorem stepW_output_size (w : AsgiStreamWriter) (op : WriterOp) :
    (stepW w op).1.output_size = w.output_size := by
  cases op <;>
    simp [stepW, AsgiStreamWriter.write, AsgiStreamWriter.write_eof,
      AsgiStreamWriter.drain]

theorem runW_output_size (ops : List WriterOp) (w : AsgiStreamWriter) :
    (runW w ops).1.output_size = w.output_size := by
  induction ops generalizing w with
  | nil => rfl
  | cons op ops ih => simpa [runW] using (ih (stepW w op).1).trans (stepW_output_size w op)

theorem runW_no_eof (ops : List WriterOp) (w : AsgiStreamWriter)
    (hops : ∀ op ∈ ops, op.isEof = false) (hw : w.eof = false) :
    (runW w ops).1.eof = false ∧ ∀ f ∈ (runW w ops).2, f.more_body = true := by
  induction ops generalizing w with
  | nil => exact ⟨by simpa [runW], by simp [runW]⟩
  | cons op ops ih =>
    have hop : op.isEof = false := hops op (List.mem_cons_self op ops)
    have hrest : ∀ o ∈ ops, o.isEof = false :=
      fun o ho => hops o (List.mem_cons_of_mem op ho)
    cases op with
    | write c =>
      have := ih { w with buffer := w.buffer ++ [c] } hrest hw
      simpa [runW, stepW, AsgiStreamWriter.write] using this
    | write_eof c => simp [WriterOp.isEof] at hop
    | drain =>
      have h2 := ih { w with buffer := [] } hrest hw
      simp only [hw] at h2
      refine ⟨by simpa [runW, stepW, AsgiStreamWriter.drain, hw] using h2.1, ?_⟩
      intro f hf
      simp [runW, stepW, AsgiStreamWriter.drain, hw] at hf
      rcases hf with hbuf | hrest2
      · rcases hbuf with ⟨b, _, hb⟩
        exact hb ▸ rfl
      · exact h2.2 f hrest2

/-- A trace all of whose frames carry `more_body = true` has no eof frame. -/
theorem eofFrameCount_eq_zero (fs : List BodyFrame)
    (h : ∀ f ∈ fs, f.more_body = true) : eofFrameCount fs = 0 :=
  List.countP_eq_zero.mpr (fun f hf => by simp [h f hf])

/-- Lemma for the `Allow` header: a `CIMultiDict` set followed by a get of the
same key returns the value just set. -/
theorem getone_setItem (h : Headers) (k v : String) :
    Headers.getone (Headers.setItem h k v) k = some v := by
  induction h with
  | nil => simp [Headers.getone, Headers.setItem, List.find?]
  | cons p ps ih =>
    by_cases hk : ciKey p.1 == ciKey k
    · simp [Headers.getone, Headers.setItem, List.filter_cons, hk, ih]
    · simp only [Bool.not_eq_true] at hk
      simp [Headers.getone, Headers.setItem, List.filter_cons, List.find?, hk, ih]

/-- A `write_eof` call transmits exactly one frame with `more_body = False`. -/
theorem eofFrameCount_write_eof (w : AsgiStreamWriter) (chunk : Bytes) :
    eofFrameCount (w.write_eof chunk).2 = 1 := by
  rw [write_eof_frames, eofFrameCount, List.countP_append]
  have h0 : ((w.buffer ++ [chunk]).map
      (fun b => ({ body := b, more_body := true } : BodyFrame))).countP
        (fun f => f.more_body == false) = 0 :=
    eofFrameCount_eq_zero _ (by
      intro f hf
      rcases List.mem_map.mp hf with ⟨b, _, hb⟩
      exact hb ▸ rfl)
  rw [h0]
  rfl

/-! ## The claims -/

/-- Claim C1, counterexample: with no prior `write` and `write_eof([7])`, the
claim predicts the single frame `{body := [7], more_body := false}`, but the
writer sends `[7]` with `more_body = true` and then an empty eof frame. -/
theorem c1_counterexample :
    (runW .mk0 (([] : List Bytes).map WriterOp.write ++ [WriterOp.write_eof [7]])).2 ≠
      (([] : List Bytes).map (fun c => ({ body := c, more_body := true } : BodyFrame))
        ++ [{ body := [7], more_body := false }]) := by
  decide

/-- Claim C1 (amended): for every sequence of `write(chunk_i)` calls followed
by one `write_eof(final)`, the transport receives one body-frame per chunk
with `more_body = true`, in enqueue order, then a body-frame with
`more_body = true` carrying `final`, then exactly one body-frame with
`more_body = false` carrying empty bytes, and no other frames. -/
theorem c1_stream_order (chunks : List Bytes) (final : Bytes) :
    (runW .mk0 (chunks.map WriterOp.write ++ [WriterOp.write_eof final])).2 =
      (chunks ++ [final]).map (fun c => { body := c, more_body := true })
        ++ [{ body := [], more_body := false }] := by
  rw [runW_append, runW_writes]
  simp [runW, stepW, write_eof_frames, AsgiStreamWriter.mk0]

/-- Claim C2, counterexample: the call sequence `write_eof(b"")` then `drain()`
contains exactly one `write_eof`, yet two frames with `more_body = false` are
transmitted, and the `drain` after `write_eof` transmits a frame. -/
theorem c2_counterexample :
    ¬ eofFrameCount (runW .mk0 [WriterOp.write_eof [], WriterOp.drain]).2 ≤ 1 ∧
      (stepW (runW .mk0 [WriterOp.write_eof []]).1 WriterOp.drain).2 ≠ [] := by
  decide

/-- Claim C2 (amended): in every call sequence containing exactly one
`write_eof` and no `drain` after it, exactly one frame with
`more_body = false` is transmitted; however, each `drain` called after
`write_eof` transmits exactly one additional empty body-frame with
`more_body = false` (the eof frame is re-sent, not suppressed). -/
theorem c2_single_eof_frame :
    (∀ (ops : List WriterOp) (final : Bytes) (laterWrites : List Bytes),
      (∀ op ∈ ops, op.isEof = false) →
      eofFrameCount
        (runW .mk0 (ops ++ [WriterOp.write_eof final]
          ++ laterWrites.map WriterOp.write)).2 = 1) ∧
    ∀ (w : AsgiStreamWriter) (chunk : Bytes),
      AsgiStreamWriter.drain (w.write_eof chunk).1 =
        ((w.write_eof chunk).1, [{ body := [], more_body := false }]) := by
  constructor
  · intro ops final laterWrites hops
    rw [List.append_assoc, runW_append, runW_append]
    have h1 := runW_no_eof ops .mk0 hops rfl
    simp only [eofFrameCount, List.countP_append]
    have e1 : (runW AsgiStreamWriter.mk0 ops).2.countP
        (fun f => f.more_body == false) = 0 :=
      eofFrameCount_eq_zero _ h1.2
    have e2 : (runW (runW AsgiStreamWriter.mk0 ops).1 [WriterOp.write_eof final]).2.countP
        (fun f => f.more_body == false) = 1 := by
      have hfr : (runW (runW AsgiStreamWriter.mk0 ops).1 [WriterOp.write_eof final]).2 =
          ((runW AsgiStreamWriter.mk0 ops).1.write_eof final).2 := by
        simp [runW, stepW]
      rw [hfr]
      exact eofFrameCount_write_eof _ _
    rw [runW_writes, e1, e2]
    rfl
  · intro w chunk
    rw [write_eof_state]
    simp [AsgiStreamWriter.drain]

theorem c2_single_eof_frame_witness :
    (∀ op ∈ ([] : List WriterOp), op.isEof = false) ∧
      eofFrameCount
        (runW .mk0 (([] : List WriterOp) ++ [WriterOp.write_eof [5]]
          ++ ([] : List Bytes).map WriterOp.write)).2 = 1 :=
  ⟨by simp, c2_single_eof_frame.1 [] [5] [] (by simp)⟩

/-- Claim C3: calling `prepare` while already prepared returns the existing
writer, changes nothing and sends nothing (in particular no second
`http.response.start` and no hook invocation); calling `prepare` after the
eof has been sent returns `None` with no hook invocation and no frame. -/
theorem c3_prepare_idempotent (s : StreamResponse) (request : Request)
    (w : AsgiStreamWriter) (hw : s._payload_writer = some w)
    (he : s._eof_sent = false) :
    StreamResponse.prepare s request = (some w, s, []) ∧
    ∀ s2 : StreamResponse, s2._eof_sent = true →
      StreamResponse.prepare s2 request = (none, s2, []) := by
  constructor
  · simp [StreamResponse.prepare, he, hw]
  · intro s2 h2
    simp [StreamResponse.prepare, h2]

theorem c3_prepare_idempotent_witness :
    sPrepared._payload_writer = some AsgiStreamWriter.mk0 ∧
    sPrepared._eof_sent = false ∧
    StreamResponse.prepare sPrepared req0 = (some AsgiStreamWriter.mk0, sPrepared, []) ∧
    StreamResponse.prepare sClosed req0 = (none, sClosed, []) :=
  ⟨rfl, rfl, (c3_prepare_idempotent sPrepared req0 AsgiStreamWriter.mk0 rfl rfl).1,
    (c3_prepare_idempotent sPrepared req0 AsgiStreamWriter.mk0 rfl rfl).2 sClosed rfl⟩

/-- Claim C4: `write` raises `RuntimeError` before any `prepare` and after
`write_eof`, in both cases before anything is sent; `write_eof` on an
already-closed response returns with no error, no state change and no new
frames. -/
theorem c4_write_state_errors :
    (∀ (s : StreamResponse) (data : Bytes),
      s._eof_sent = false → s._payload_writer = none →
      StreamResponse.write s data =
        .error (.runtimeError "Cannot call write() before prepare()")) ∧
    (∀ (s : StreamResponse) (data : Bytes), s._eof_sent = true →
      StreamResponse.write s data =
        .error (.runtimeError "Cannot call write() after write_eof()")) ∧
    (∀ (s : StreamResponse) (data : Bytes), s._eof_sent = true →
      StreamResponse.write_eof s data = .ok (s, [])) := by
  refine ⟨fun s data he hw => ?_, fun s data he => ?_, fun s data he => ?_⟩
  · simp [StreamResponse.write, he, hw]
  · simp [StreamResponse.write, he]
  · simp [StreamResponse.write_eof, he]

theorem c4_write_state_errors_witness :
    (s200._eof_sent = false ∧ s200._payload_writer = none ∧
      StreamResponse.write s200 [1] =
        .error (.runtimeError "Cannot call write() before prepare()")) ∧
    (sClosed._eof_sent = true ∧
      StreamResponse.write sClosed [1] =
        .error (.runtimeError "Cannot call write() after write_eof()")) ∧
    StreamResponse.write_eof sClosed [2] = .ok (sClosed, []) :=
  ⟨⟨rfl, rfl, c4_write_state_errors.1 s200 [1] rfl rfl⟩,
   ⟨rfl, c4_write_state_errors.2.1 sClosed [1] rfl⟩,
   c4_write_state_errors.2.2 sClosed [2] rfl⟩

/-- Claim C5, counterexample: `HTTPMethodNotAllowed("get", ["get","post","PUT"])`
produces `Allow: PUT,get,post` (code-point sort of the methods as given, no
case normalization), not the claimed `Allow: GET,POST,PUT`. -/
theorem c5_counterexample :
    c5allow = some "PUT,get,post" ∧ c5allow ≠ some "GET,POST,PUT" := by
  decide

/-- Claim C5 (amended): the `Allow` header is the comma-joined,
code-point-sorted list of the allowed methods exactly as passed (no case
normalization); only the stored `method` attribute is uppercased. -/
theorem c5_allow_header (method : String) (allowed : List String)
    (content : Option Content) (headers : Option Headers) :
    ∃ d, HTTPMethodNotAllowed.init method allowed content headers = .ok d ∧
      Headers.getone d.resp.headers "Allow" =
        some (",".intercalate (pySorted allowed)) ∧
      d.method = pyUpper method ∧ d.allowed_methods = allowed := by
  refine ⟨_, rfl, ?_, rfl, rfl⟩
  exact getone_setItem (Headers.ofOpt headers) "Allow"
    (",".intercalate (pySorted allowed))

/-- Claim C6, counterexample: prepare, `write(b"7")`, `write_eof(b"")`
transmits 1 body byte, but the recorded `_body_length` is `0` (the writer's
`output_size` is never updated), not the claimed byte total. -/
theorem c6_counterexample :
    transmittedBody c6run = some 1 ∧ recordedLen c6run = some (some 0) ∧
      recordedLen c6run ≠ some (some 1) := by
  decide

/-- Claim C6 (amended): after a successful `write_eof`, the recorded
`_body_length` equals the writer's `output_size` attribute — which no writer
operation ever updates, so it is `0`, not the number of bytes transmitted —
and both the request reference and the writer are released. -/
theorem c6_write_eof_releases (s : StreamResponse) (w : AsgiStreamWriter)
    (ops : List WriterOp) (data : Bytes)
    (he : s._eof_sent = false) (hw : s._payload_writer = some w)
    (hreach : w = (runW .mk0 ops).1) :
    StreamResponse.write_eof s data =
      .ok ({ s with _eof_sent := true, _req := none,
                    _body_length := some w.output_size,
                    _payload_writer := none },
           (w.write_eof data).2.map Effect.frame) ∧
      w.output_size = 0 := by
  have hz : w.output_size = 0 := by
    rw [hreach, runW_output_size]
    rfl
  constructor
  · simp [StreamResponse.write_eof, he, hw, write_eof_state]
  · exact hz

theorem c6_write_eof_releases_witness :
    sPrepared._eof_sent = false ∧
    sPrepared._payload_writer = some AsgiStreamWriter.mk0 ∧
    AsgiStreamWriter.mk0 = (runW .mk0 []).1 ∧
    (StreamResponse.write_eof sPrepared [3] =
      .ok ({ sPrepared with _eof_sent := true, _req := none,
                            _body_length := some AsgiStreamWriter.mk0.output_size,
                            _payload_writer := none },
           (AsgiStreamWriter.mk0.write_eof [3]).2.map Effect.frame) ∧
      AsgiStreamWriter.mk0.output_size = 0) :=
  ⟨rfl, rfl, rfl,
    c6_write_eof_releases sPrepared AsgiStreamWriter.mk0 [] [3] rfl rfl rfl⟩

/-- Claim C7, counterexample: on an absent key, `asyncget` raises `KeyError`
(it is a raw dict access) instead of returning `None`. -/
theorem c7_counterexample :
    ApplicationRoot.asyncget root0 "db" = .error PyErr.keyError ∧
      (ApplicationRoot.asyncget root0 "db").toOption = none :=
  ⟨rfl, rfl⟩

/-- Claim C7 (amended): on an absent key, `get` returns `None` (its `KeyError`
is swallowed), while `asyncget` raises `KeyError`. -/
theorem c7_get_absent {α : Type} (root : ApplicationRoot α) (key : String)
    (h : root._dbs.lookup key = none) :
    ApplicationRoot.get root key = none ∧
      ApplicationRoot.asyncget root key = .error PyErr.keyError := by
  constructor
  · simp [ApplicationRoot.get, ApplicationRoot.getitem, h]
  · simp [ApplicationRoot.asyncget, h]

theorem c7_get_absent_witness :
    root0._dbs.lookup "db" = none ∧
    (ApplicationRoot.get root0 "db" = none ∧
      ApplicationRoot.asyncget root0 "db" = .error PyErr.keyError) :=
  ⟨rfl, c7_get_absent root0 "db" rfl⟩

/-- Claim C8: constructing a response whose class fixes a (truthy) status code
while passing an explicit status raises `ValueError` at construction time;
constructing it with no status succeeds and carries the class-default
status. -/
theorem c8_fixed_status (cls : RespClass) (k : Nat) (content : Option Content)
    (headers : Option Headers) (hfix : cls.status_code = some k) (hk : k ≠ 0) :
    (∀ st : Nat, Response.init cls content headers (some st) =
      .error (.valueError "Can not customize status code of this type")) ∧
    ∃ r, Response.init cls content headers none = .ok r ∧
      r.status_code = some k := by
  constructor
  · intro st
    simp [Response.init, truthyCode, hfix, hk]
  · exact ⟨_, rfl, by simp [hfix]⟩

theorem c8_fixed_status_witness :
    HTTPOk.status_code = some 200 ∧ (200 : Nat) ≠ 0 ∧
    Response.init HTTPOk none none (some 201) =
      .error (.valueError "Can not customize status code of this type") ∧
    ∃ r, Response.init HTTPOk none none none = .ok r ∧
      r.status_code = some 200 :=
  ⟨rfl, by decide,
   (c8_fixed_status HTTPOk 200 none none rfl (by decide)).1 201,
   (c8_fixed_status HTTPOk 200 none none rfl (by decide)).2⟩

/-- Claim C9: a materialized response with status 204 or 205 — via the
dedicated `HTTPNoContent`/`HTTPResetContent` subclasses or via the base
`Response` with an explicit 204/205 status — always has `None` content,
whatever content argument was passed. -/
theorem c9_no_content_204_205 (content : Option Content) (headers : Option Headers) :
    (∀ st : Nat, st = 204 ∨ st = 205 →
      ∃ r, Response.init Response content headers (some st) = .ok r ∧
        r.content = none) ∧
    (∃ r, Response.init HTTPNoContent content headers none = .ok r ∧
      r.content = none) ∧
    (∃ r, Response.init HTTPResetContent content headers none = .ok r ∧
      r.content = none) := by
  refine ⟨fun st hst => ?_, ⟨_, rfl, rfl⟩, ⟨_, rfl, rfl⟩⟩
  rcases hst with rfl | rfl
  · exact ⟨_, rfl, rfl⟩
  · exact ⟨_, rfl, rfl⟩

theorem c9_no_content_204_205_witness :
    ((204 : Nat) = 204 ∨ (204 : Nat) = 205) ∧
    (∃ r, Response.init Response (some [("a", "b")]) none (some 204) = .ok r ∧
      r.content = none) ∧
    (∃ r, Response.init HTTPNoContent (some [("a", "b")]) none none = .ok r ∧
      r.content = none) ∧
    (∃ r, Response.init HTTPResetContent (some [("a", "b")]) none none = .ok r ∧
      r.content = none) :=
  ⟨Or.inl rfl,
   (c9_no_content_204_205 (some [("a", "b")]) none).1 204 (Or.inl rfl),
   (c9_no_content_204_205 (some [("a", "b")]) none).2.1,
   (c9_no_content_204_205 (some [("a", "b")]) none).2.2⟩

/-- Claim C10: `StreamResponse` construction with the default `status=None`
raises `ValueError("Status is none")`; construction with any explicit status
succeeds and the instance carries that (non-`None`) status from the start. -/
theorem c10_stream_requires_status (content : Option Content)
    (headers : Option Headers) :
    StreamResponse.init content headers none =
      .error (.valueError "Status is none") ∧
    ∀ st : Nat, ∃ s, StreamResponse.init content headers (some st) = .ok s ∧
      s.status_code = some st :=
  ⟨rfl, fun _ => ⟨_, rfl, rfl⟩⟩
